import Mathlib

/-!
# Verification of the Gemini text-to-speech front-end

Shallow embedding of `testresults.py`: the L16-PCM-to-WAV container encoder
`convert_l16_to_wav` (whose byte-level output is determined by Python's
`wave` module writer) and the request/response handler `generate_speech`
(JSON navigation, base64 decoding, and the mime-type dispatch), together
with theorems settling the specification's claims about them.

Bytes are modelled as `Nat` values below 256 in `List Nat`; the 32-bit
little-endian header fields are written modulo 2^32, exactly the wire bytes
`struct.pack("<L", _)` produces on every value it accepts (for byte strings
of 2^32 - 36 bytes or more — unreachable for any real audio payload —
`struct.pack` would instead raise, so theorems about the header fields carry
the corresponding size bound as a hypothesis).
-/

/-- Little-endian 16-bit field, as the two wire bytes (`struct.pack "<H"`). -/
def u16le (n : Nat) : List Nat := [n % 256, n / 256 % 256]

/-- Little-endian 32-bit field, as the four wire bytes (`struct.pack "<L"`),
taken modulo 2^32. -/
def u32le (n : Nat) : List Nat :=
  [n % 256, n / 256 % 256, n / 65536 % 256, n / 16777216 % 256]

/-- ASCII bytes of a tag string such as `b"RIFF"`. -/
def ascii (s : String) : List Nat := s.data.map Char.toNat

/-- Sample rate fixed by `convert_l16_to_wav` (line 18 of the source). -/
def sample_rate : Nat := 24000

/-- Channel count fixed by `convert_l16_to_wav` (line 19 of the source). -/
def num_channels : Nat := 1

/-- Bytes per sample fixed by `convert_l16_to_wav` (line 20: 16-bit). -/
def sample_width : Nat := 2

/-- The 44-byte RIFF/WAVE header the Python `wave` module writes for a data
block of `datalen` bytes: `RIFF`, chunk size `36 + datalen`, `WAVE`,
`fmt ` block of size 16 with PCM format tag 1, the channel/rate/byte-rate/
block-align/bit-depth fields, then `data` and the data length. After
`writeframes`, `wave` patches both length fields to the number of bytes
actually written, so `datalen` is the exact input length even when it is not
a multiple of the frame size. -/
def wavHeader (datalen : Nat) : List Nat :=
  ascii "RIFF" ++ u32le (36 + datalen) ++ ascii "WAVE" ++
  ascii "fmt " ++ u32le 16 ++ u16le 1 ++ u16le num_channels ++
  u32le sample_rate ++ u32le (num_channels * sample_rate * sample_width) ++
  u16le (num_channels * sample_width) ++ u16le (sample_width * 8) ++
  ascii "data" ++ u32le datalen

/-- Models `convert_l16_to_wav` (source lines 16-31): write the raw PCM bytes
through `wave.open(..., "wb")` with 1 channel, sample width 2 and frame rate
24000, returning the whole in-memory buffer: the 44-byte header followed by
the input bytes verbatim. -/
def convert_l16_to_wav (pcm_data : List Nat) : List Nat :=
  wavHeader pcm_data.length ++ pcm_data

/-- Little-endian read of the first four bytes of a list (0 when shorter). -/
def readLE4 : List Nat → Nat
  | a :: b :: c :: d :: _ => a + 256 * b + 65536 * c + 16777216 * d
  | _ => 0

/-- Little-endian read of the first two bytes of a list (0 when shorter). -/
def readLE2 : List Nat → Nat
  | a :: b :: _ => a + 256 * b
  | _ => 0

/-- 32-bit little-endian field of a byte string at offset `i`. -/
def fieldU32 (w : List Nat) (i : Nat) : Nat := readLE4 (w.drop i)

/-- 16-bit little-endian field of a byte string at offset `i`. -/
def fieldU16 (w : List Nat) (i : Nat) : Nat := readLE2 (w.drop i)

/-- What a standard WAV decoder reports for a parsed file. -/
structure WavInfo where
  numChannels : Nat
  sampleRate : Nat
  bitsPerSample : Nat
  dataBytes : List Nat
deriving DecidableEq, Repr

/-- A standard WAV decoder for the canonical single-`fmt `-chunk layout:
checks the `RIFF`/`WAVE`/`fmt `/`data` structure, the 16-byte PCM format
block (format tag 1), and that the declared data size is available, then
reports the declared channel count, sample rate and bit depth together with
exactly the declared number of data bytes. -/
def parseWav (w : List Nat) : Option WavInfo :=
  if 44 ≤ w.length ∧
     w.take 4 = ascii "RIFF" ∧
     (w.drop 8).take 4 = ascii "WAVE" ∧
     (w.drop 12).take 4 = ascii "fmt " ∧
     fieldU32 w 16 = 16 ∧
     fieldU16 w 20 = 1 ∧
     (w.drop 36).take 4 = ascii "data" ∧
     44 + fieldU32 w 40 ≤ w.length
  then some ⟨fieldU16 w 22, fieldU32 w 24, fieldU16 w 34,
             (w.drop 44).take (fieldU32 w 40)⟩
  else none

/-- The header in explicit byte-list form. -/
theorem wavHeader_eq (n : Nat) :
    wavHeader n =
      82 :: 73 :: 70 :: 70 ::
      ((36 + n) % 256) :: ((36 + n) / 256 % 256) ::
      ((36 + n) / 65536 % 256) :: ((36 + n) / 16777216 % 256) ::
      87 :: 65 :: 86 :: 69 :: 102 :: 109 :: 116 :: 32 ::
      16 :: 0 :: 0 :: 0 :: 1 :: 0 :: 1 :: 0 ::
      192 :: 93 :: 0 :: 0 :: 128 :: 187 :: 0 :: 0 :: 2 :: 0 :: 16 :: 0 ::
      100 :: 97 :: 116 :: 97 ::
      (n % 256) :: (n / 256 % 256) :: (n / 65536 % 256) ::
      (n / 16777216 % 256) :: [] := rfl

/-- Reassembling the four little-endian digit bytes of `n` gives `n` mod 2^32. -/
theorem readLE4_digits (n : Nat) :
    n % 256 + 256 * (n / 256 % 256) + 65536 * (n / 65536 % 256) +
      16777216 * (n / 16777216 % 256) = n % 4294967296 := by
  omega

/-- The produced container is the header followed by the input, byte for byte. -/
theorem convert_append (S : List Nat) :
    convert_l16_to_wav S = wavHeader S.length ++ S := rfl

/-- The header is 44 bytes long. -/
theorem wavHeader_length (n : Nat) : (wavHeader n).length = 44 := rfl

/-- Total length of the produced container. -/
theorem convert_length (S : List Nat) :
    (convert_l16_to_wav S).length = S.length + 44 := by
  rw [convert_append, List.length_append, wavHeader_length]; omega

/-- The bytes after the 44-byte header are the input, verbatim. -/
theorem convert_drop_44 (S : List Nat) :
    (convert_l16_to_wav S).drop 44 = S := by
  rw [convert_append]
  have h : (wavHeader S.length).length = 44 := wavHeader_length _
  rw [← h, List.drop_left]

/-- The declared data-chunk size field (offset 40) is the input length mod 2^32. -/
theorem convert_dataField (S : List Nat) :
    fieldU32 (convert_l16_to_wav S) 40 = S.length % 4294967296 := by
  rw [convert_append, wavHeader_eq]
  show readLE4 (List.drop 40 _) = _
  show S.length % 256 + 256 * (S.length / 256 % 256) +
      65536 * (S.length / 65536 % 256) +
      16777216 * (S.length / 16777216 % 256) = _
  exact readLE4_digits S.length

/-- The channel-count field of the produced container is 1. -/
theorem convert_channelsField (S : List Nat) :
    fieldU16 (convert_l16_to_wav S) 22 = 1 := rfl

/-- The sample-rate field of the produced container is 24000. -/
theorem convert_rateField (S : List Nat) :
    fieldU32 (convert_l16_to_wav S) 24 = 24000 := rfl

/-- The bits-per-sample field of the produced container is 16. -/
theorem convert_bitsField (S : List Nat) :
    fieldU16 (convert_l16_to_wav S) 34 = 16 := rfl

set_option maxHeartbeats 1000000 in
/-- Encoding then decoding recovers the input with the declared parameters,
for every input small enough for the 32-bit size fields. -/
theorem wav_roundtrip (S : List Nat) (hlt : S.length + 36 < 4294967296) :
    parseWav (convert_l16_to_wav S) = some ⟨1, 24000, 16, S⟩ := by
  have hdata : fieldU32 (convert_l16_to_wav S) 40 = S.length := by
    rw [convert_dataField]; omega
  have hlen := convert_length S
  have hcond : 44 ≤ (convert_l16_to_wav S).length ∧
      (convert_l16_to_wav S).take 4 = ascii "RIFF" ∧
      ((convert_l16_to_wav S).drop 8).take 4 = ascii "WAVE" ∧
      ((convert_l16_to_wav S).drop 12).take 4 = ascii "fmt " ∧
      fieldU32 (convert_l16_to_wav S) 16 = 16 ∧
      fieldU16 (convert_l16_to_wav S) 20 = 1 ∧
      ((convert_l16_to_wav S).drop 36).take 4 = ascii "data" ∧
      44 + fieldU32 (convert_l16_to_wav S) 40 ≤ (convert_l16_to_wav S).length :=
    ⟨by omega, rfl, rfl, rfl, rfl, rfl, rfl, by omega⟩
  unfold parseWav
  rw [if_pos hcond, convert_channelsField, convert_rateField, convert_bitsField,
    hdata, convert_drop_44, List.take_length]

/-- C1: for every byte sequence `S` whose length is a multiple of 2 (and small
enough for the 32-bit RIFF size fields), encoding `S` with
`convert_l16_to_wav` and then decoding the resulting container with a
standard WAV decoder yields back exactly `S`, with channel count 1, sample
rate 24000 and bit depth 16. -/
theorem claim_C1_roundtrip (S : List Nat) (_heven : 2 ∣ S.length)
    (hlt : S.length + 36 < 4294967296) :
    parseWav (convert_l16_to_wav S) = some ⟨1, 24000, 16, S⟩ :=
  wav_roundtrip S hlt

/-- Witness for C1 at the concrete two-byte input `[1, 2]`. -/
theorem claim_C1_roundtrip_witness :
    2 ∣ ([1, 2] : List Nat).length ∧
      ([1, 2] : List Nat).length + 36 < 4294967296 ∧
      parseWav (convert_l16_to_wav [1, 2]) = some ⟨1, 24000, 16, [1, 2]⟩ :=
  ⟨by decide, by decide, claim_C1_roundtrip [1, 2] (by decide) (by decide)⟩

/-- C2: the container produced by `convert_l16_to_wav` declares a data-chunk
size (the 32-bit field at offset 40) equal to the input length, and the data
block after the 44-byte header contains the input bytes verbatim. -/
theorem claim_C2_data_chunk (S : List Nat) (hlt : S.length + 36 < 4294967296) :
    fieldU32 (convert_l16_to_wav S) 40 = S.length ∧
      (convert_l16_to_wav S).drop 44 = S := by
  refine ⟨?_, convert_drop_44 S⟩
  rw [convert_dataField]; omega

/-- Witness for C2 at the concrete input `[7, 8]`. -/
theorem claim_C2_data_chunk_witness :
    ([7, 8] : List Nat).length + 36 < 4294967296 ∧
      (fieldU32 (convert_l16_to_wav [7, 8]) 40 = ([7, 8] : List Nat).length ∧
        (convert_l16_to_wav [7, 8]).drop 44 = [7, 8]) :=
  ⟨by decide, claim_C2_data_chunk [7, 8] (by decide)⟩

/-- C3: on 48000 zero bytes, `convert_l16_to_wav` produces exactly
48044 bytes: the 44-byte header followed by the 48000 data bytes, with
sample-rate field 24000, channel field 1 and bit-depth field 16. -/
theorem claim_C3_scenario :
    (convert_l16_to_wav (List.replicate 48000 0)).length = 48044 ∧
    (convert_l16_to_wav (List.replicate 48000 0)).take 44 = wavHeader 48000 ∧
    (convert_l16_to_wav (List.replicate 48000 0)).drop 44 =
      List.replicate 48000 0 ∧
    fieldU32 (convert_l16_to_wav (List.replicate 48000 0)) 24 = 24000 ∧
    fieldU16 (convert_l16_to_wav (List.replicate 48000 0)) 22 = 1 ∧
    fieldU16 (convert_l16_to_wav (List.replicate 48000 0)) 34 = 16 := by
  refine ⟨?_, ?_, convert_drop_44 _, convert_rateField _,
    convert_channelsField _, convert_bitsField _⟩
  · rw [convert_length, List.length_replicate]
  · rw [convert_append, List.length_replicate, ← wavHeader_length 48000]
    exact List.take_left _ _

/-- C8: `convert_l16_to_wav` accepts every input byte sequence without
validating the frame size, silently tolerating a trailing partial frame: the
output is always the 44-byte header plus all input bytes verbatim, and the
declared data size counts the partial frame too. -/
theorem claim_C8_no_validation (S : List Nat)
    (hlt : S.length + 36 < 4294967296) :
    (convert_l16_to_wav S).length = S.length + 44 ∧
      (convert_l16_to_wav S).drop 44 = S ∧
      fieldU32 (convert_l16_to_wav S) 40 = S.length := by
  refine ⟨convert_length S, convert_drop_44 S, ?_⟩
  rw [convert_dataField]; omega

/-- Witness for C8 at the odd-length input `[5, 6, 7]` (a trailing partial
frame). -/
theorem claim_C8_no_validation_witness :
    ([5, 6, 7] : List Nat).length + 36 < 4294967296 ∧
      ((convert_l16_to_wav [5, 6, 7]).length = ([5, 6, 7] : List Nat).length + 44 ∧
        (convert_l16_to_wav [5, 6, 7]).drop 44 = [5, 6, 7] ∧
        fieldU32 (convert_l16_to_wav [5, 6, 7]) 40 = ([5, 6, 7] : List Nat).length) :=
  ⟨by decide, claim_C8_no_validation [5, 6, 7] (by decide)⟩

/-- JSON values, as returned by `response.json()`. Objects model Python
dicts as association lists whose keys are unique (first match wins on
lookup); numbers are restricted to integers, since no claim involves a
numeric JSON field. -/
inductive Json where
  | null
  | bool (b : Bool)
  | num (n : Int)
  | str (s : String)
  | arr (xs : List Json)
  | obj (fields : List (String × Json))

/-- The apostrophe character, as Python prints it around `repr` of a key in
exception messages. -/
def pyQuote : String := String.mk [Char.ofNat 39]

/-- Python type name of a JSON value, as it appears in error messages. -/
def pyTypeName : Json → String
  | .null => "NoneType"
  | .bool _ => "bool"
  | .num _ => "int"
  | .str _ => "str"
  | .arr _ => "list"
  | .obj _ => "dict"

/-- Python truthiness of a JSON value (`if inline_data:`): `None`, `False`,
`0`, and empty strings/lists/dicts are falsy. -/
def jsonTruthy : Json → Bool
  | .null => false
  | .bool b => b
  | .num n => n != 0
  | .str s => !s.isEmpty
  | .arr xs => !xs.isEmpty
  | .obj fields => !fields.isEmpty

/-- Whether `needle` occurs as a contiguous run inside `hay`. -/
def containsSubAux (needle : List Char) : List Char → Bool
  | [] => needle.isEmpty
  | c :: rest => needle.isPrefixOf (c :: rest) || containsSubAux needle rest

/-- Python `needle in hay` on strings: substring test. -/
def strContainsSub (hay needle : String) : Bool :=
  containsSubAux needle.data hay.data

/-- Python `needle in j` for a string needle: key lookup on dicts, element
equality on lists (only string elements can equal a string), substring test
on strings; `TypeError` otherwise. -/
def pyIn (needle : String) : Json → Except String Bool
  | .obj fields => .ok (List.lookup needle fields).isSome
  | .arr xs =>
      .ok (xs.any (fun j => match j with | .str s => s == needle | _ => false))
  | .str s => .ok (strContainsSub s needle)
  | j => .error ("argument of type " ++ pyQuote ++ pyTypeName j ++ pyQuote ++
      " is not iterable")

/-- Python `j[key]` for a string key: dict lookup with `KeyError` (whose
`str` is the quoted key) when absent, `TypeError` on other types. -/
def pyGetItem (j : Json) (key : String) : Except String Json :=
  match j with
  | .obj fields =>
    match List.lookup key fields with
    | some v => .ok v
    | none => .error (pyQuote ++ key ++ pyQuote)
  | .arr _ => .error "list indices must be integers or slices, not str"
  | .str _ => .error "string indices must be integers"
  | j => .error (pyQuote ++ pyTypeName j ++ pyQuote ++ " object is not subscriptable")

/-- Python `j[i]` for a non-negative integer index: list/string indexing
with `IndexError` when out of range, `KeyError` (printing the integer) on a
dict, `TypeError` on the rest. -/
def pyIndex (j : Json) (i : Nat) : Except String Json :=
  match j with
  | .arr xs =>
    match xs.get? i with
    | some v => .ok v
    | none => .error "list index out of range"
  | .str s =>
    match s.data.get? i with
    | some c => .ok (.str (String.mk [c]))
    | none => .error "string index out of range"
  | .obj _ => .error (toString i)
  | j => .error (pyQuote ++ pyTypeName j ++ pyQuote ++ " object is not subscriptable")

/-- Python `len(j)`: `TypeError` on values without a length. -/
def pyLen : Json → Except String Nat
  | .arr xs => .ok xs.length
  | .str s => .ok s.length
  | .obj fields => .ok fields.length
  | j => .error ("object of type " ++ pyQuote ++ pyTypeName j ++ pyQuote ++
      " has no len()")

/-- Python `j.get(key)` on a dict (`None` when the key is absent);
`AttributeError` on non-dicts. -/
def pyDictGet (j : Json) (key : String) : Except String (Option Json) :=
  match j with
  | .obj fields => .ok (List.lookup key fields)
  | j => .error (pyQuote ++ pyTypeName j ++ pyQuote ++ " object has no attribute " ++
      pyQuote ++ "get" ++ pyQuote)

/-- Value of a base64 alphabet character (`A-Z`, `a-z`, `0-9`, `+`, `/`). -/
def b64Val (c : Char) : Option Nat :=
  if 65 ≤ c.toNat ∧ c.toNat ≤ 90 then some (c.toNat - 65)
  else if 97 ≤ c.toNat ∧ c.toNat ≤ 122 then some (c.toNat - 97 + 26)
  else if 48 ≤ c.toNat ∧ c.toNat ≤ 57 then some (c.toNat - 48 + 52)
  else if c = '+' then some 62
  else if c = '/' then some 63
  else none

/-- Bytes encoded by one group of at most four 6-bit values. -/
def b64Group : List Nat → List Nat
  | a :: b :: c :: d :: _ =>
      [a * 4 + b / 16, b % 16 * 16 + c / 4, c % 4 * 64 + d]
  | [a, b, c] => [a * 4 + b / 16, b % 16 * 16 + c / 4]
  | [a, b] => [a * 4 + b / 16]
  | _ => []

/-- Decode a list of 6-bit values four at a time. -/
def b64Quads : List Nat → List Nat
  | a :: b :: c :: d :: rest => b64Group [a, b, c, d] ++ b64Quads rest
  | rest => b64Group rest

/-- Models `base64.b64decode` on a `str` argument with default validation:
the string must be ASCII, characters outside the alphabet are discarded,
`=` ends the data, and the count of significant characters must be a
multiple of four. (`binascii` legacy-mode quirks around mid-string padding
are not modelled; no claim depends on them.) -/
def b64decode (s : String) : Except String (List Nat) :=
  if s.data.any (fun c => 128 ≤ c.toNat) then
    .error "string argument should contain only ASCII characters"
  else
    let sig := s.data.filter (fun c => (b64Val c).isSome || c == '=')
    let vals := (sig.takeWhile (fun c => c != '=')).filterMap b64Val
    if sig.length % 4 ≠ 0 then .error "Incorrect padding"
    else if vals.length % 4 = 1 then .error "Invalid base64-encoded string"
    else .ok (b64Quads vals)

/-- `base64.b64decode` applied to a JSON value: decodes strings, raises a
`TypeError` on anything else. -/
def pyB64decode : Json → Except String (List Nat)
  | .str s => b64decode s
  | j => .error ("argument should be a bytes-like object or ASCII string, not " ++
      pyQuote ++ pyTypeName j ++ pyQuote)

/-- Outcome of `requests.post(...)` followed by `response.raise_for_status()`
and `response.json()`: either a `requests.exceptions.RequestException`
(connection failure or non-2xx status) carrying its message, or a
successfully parsed JSON body. -/
inductive ApiResponse where
  | requestError (msg : String)
  | success (body : Json)

/-- The `try`-body of `generate_speech` after the response is parsed
(source lines 65-77): navigate
`result["candidates"][0]["content"]["parts"][0].get("inlineData")`, decode
the base64 audio, wrap it in a WAV container when the mime type mentions
`audio/L16` or `audio/pcm`, and fall through to the
`"No audio data in response"` return when `candidates` is absent or empty
or `inlineData` is absent or falsy. Exceptions are modelled as `.error`
carrying `str(e)`. -/
def extractResult (result : Json) :
    Except String (Option (List Nat) × Option String) :=
  match pyIn "candidates" result with
  | .error e => .error e
  | .ok hasCandidates =>
    if hasCandidates then
      match pyGetItem result "candidates" with
      | .error e => .error e
      | .ok candidates =>
        match pyLen candidates with
        | .error e => .error e
        | .ok n =>
          if 0 < n then
            match pyIndex candidates 0 with
            | .error e => .error e
            | .ok cand0 =>
              match pyGetItem cand0 "content" with
              | .error e => .error e
              | .ok content =>
                match pyGetItem content "parts" with
                | .error e => .error e
                | .ok parts =>
                  match pyIndex parts 0 with
                  | .error e => .error e
                  | .ok part0 =>
                    match pyDictGet part0 "inlineData" with
                    | .error e => .error e
                    | .ok none => .ok (none, some "No audio data in response")
                    | .ok (some inline_data) =>
                      if jsonTruthy inline_data then
                        match pyGetItem inline_data "data" with
                        | .error e => .error e
                        | .ok dataField =>
                          match pyB64decode dataField with
                          | .error e => .error e
                          | .ok audio_data =>
                            match pyGetItem inline_data "mimeType" with
                            | .error e => .error e
                            | .ok mimeField =>
                              match pyIn "audio/L16" mimeField with
                              | .error e => .error e
                              | .ok isL16 =>
                                if isL16 then
                                  .ok (some (convert_l16_to_wav audio_data), none)
                                else
                                  match pyIn "audio/pcm" mimeField with
                                  | .error e => .error e
                                  | .ok isPcm =>
                                    if isPcm then
                                      .ok (some (convert_l16_to_wav audio_data), none)
                                    else .ok (some audio_data, none)
                      else .ok (none, some "No audio data in response")
          else .ok (none, some "No audio data in response")
    else .ok (none, some "No audio data in response")

/-- Models `generate_speech` (source lines 33-82) as a function of the
transport outcome: a `RequestException` is caught and reported as
`"API Error: " + str(e)`; any exception inside the `try`-body is caught and
reported as `"Error: " + str(e)`; otherwise the body's return value stands.
The `api_key`, `text` and `voice_name` arguments shape only the outgoing
request (see `buildPayload`), never the handling of the response. -/
def generate_speech (api_key text voice_name : String) (resp : ApiResponse) :
    Option (List Nat) × Option String :=
  match resp with
  | .requestError e => (none, some ("API Error: " ++ e))
  | .success result =>
    match extractResult result with
    | .ok r => r
    | .error e => (none, some ("Error: " ++ e))

/-- Default of the `voice_name` parameter of `generate_speech`
(source line 33: `voice_name="Puck"`). -/
def defaultVoiceName : String := "Puck"

/-- The ten voice labels offered by the UI dropdown (source lines 96-99). -/
def voices : List String :=
  ["Puck", "Charon", "Kore", "Fenrir", "Aoede",
   "Leda", "Grus", "Elio", "Kiera", "Orion"]

/-- The JSON request payload `generate_speech` builds and posts
(source lines 37-52). -/
def buildPayload (text voice_name : String) : Json :=
  .obj [
    ("contents", .arr [
      .obj [
        ("role", .str "user"),
        ("parts", .arr [.obj [("text", .str text)]])
      ]
    ]),
    ("generationConfig", .obj [
      ("responseModalities", .arr [.str "AUDIO"]),
      ("speechConfig", .obj [
        ("voiceConfig", .obj [
          ("prebuiltVoiceConfig", .obj [("voiceName", .str voice_name)])
        ])
      ])
    ])
  ]

/-- Lookup of a key in a JSON object (`none` on other values). -/
def jsonLookup (j : Json) (key : String) : Option Json :=
  match j with
  | .obj fields => List.lookup key fields
  | _ => none

/-- The `voiceName` field of a request payload, along the path
`generationConfig.speechConfig.voiceConfig.prebuiltVoiceConfig.voiceName`. -/
def payloadVoiceName (payload : Json) : Option Json :=
  (jsonLookup payload "generationConfig").bind fun g =>
    (jsonLookup g "speechConfig").bind fun s =>
      (jsonLookup s "voiceConfig").bind fun v =>
        (jsonLookup v "prebuiltVoiceConfig").bind fun p =>
          jsonLookup p "voiceName"

/-- Every successful run of the `try`-body returns either an audio payload
with no error, or no payload with the specific no-audio error string. -/
theorem extractResult_shape (result : Json)
    (r : Option (List Nat) × Option String)
    (h : extractResult result = .ok r) :
    (∃ a, r = (some a, none)) ∨
      r = (none, some "No audio data in response") := by
  unfold extractResult at h
  iterate 40 all_goals try split at h
  all_goals try exact Except.noConfusion h
  all_goals injection h with h
  all_goals subst h
  all_goals first
    | exact Or.inl ⟨_, rfl⟩
    | exact Or.inr rfl

/-- C7: every invocation of `generate_speech` — any key, text, voice and any
transport or response outcome — produces exactly one of an audio payload
with no error, or an error string with no audio payload. -/
theorem claim_C7_exactly_one (api_key text voice_name : String)
    (resp : ApiResponse) :
    (∃ a, generate_speech api_key text voice_name resp = (some a, none)) ∨
      (∃ e, generate_speech api_key text voice_name resp = (none, some e)) := by
  cases resp with
  | requestError e => exact Or.inr ⟨"API Error: " ++ e, rfl⟩
  | success result =>
    rcases hres : extractResult result with e | r
    · exact Or.inr ⟨"Error: " ++ e, by simp [generate_speech, hres]⟩
    · rcases extractResult_shape result r hres with ⟨a, ha⟩ | hb
      · exact Or.inl ⟨a, by simp [generate_speech, hres, ha]⟩
      · exact Or.inr ⟨"No audio data in response",
          by simp [generate_speech, hres, hb]⟩

/-- A list is a prefix of itself under `isPrefixOf`. -/
theorem isPrefixOf_self (l : List Char) : l.isPrefixOf l = true := by
  induction l with
  | nil => rfl
  | cons c t ih => simp [List.isPrefixOf, ih]

/-- A list occurs as a substring at the end of any extension of itself. -/
theorem containsSubAux_append (needle pre : List Char) :
    containsSubAux needle (pre ++ needle) = true := by
  induction pre with
  | nil =>
    cases needle with
    | nil => rfl
    | cons c rest => simp [containsSubAux, isPrefixOf_self]
  | cons c t ih => simp [containsSubAux, ih]

/-- C9: every transport-level failure is caught (not propagated) and
returned as an error string embedding the underlying failure description. -/
theorem claim_C9_transport_error (api_key text voice_name msg : String) :
    generate_speech api_key text voice_name (.requestError msg) =
      (none, some ("API Error: " ++ msg)) ∧
    strContainsSub ("API Error: " ++ msg) msg = true := by
  refine ⟨rfl, ?_⟩
  show containsSubAux msg.data ("API Error: ".data ++ msg.data) = true
  exact containsSubAux_append msg.data "API Error: ".data

/-- Responses whose JSON object has no `candidates` key, or whose candidates
list is empty, fall through to the specific no-audio return. -/
theorem extractResult_no_candidates (fields : List (String × Json))
    (h : List.lookup "candidates" fields = none ∨
         List.lookup "candidates" fields = some (.arr [])) :
    extractResult (.obj fields) =
      .ok (none, some "No audio data in response") := by
  rcases h with h | h
  · unfold extractResult
    simp [pyIn, h]
  · unfold extractResult
    simp [pyIn, h, pyGetItem, pyLen]

/-- C5: for every response JSON object that lacks a `candidates` key (or
whose candidates list is empty), `generate_speech` returns the error
`"No audio data in response"` and no audio bytes. -/
theorem claim_C5_no_candidates (api_key text voice_name : String)
    (fields : List (String × Json))
    (h : List.lookup "candidates" fields = none ∨
         List.lookup "candidates" fields = some (.arr [])) :
    generate_speech api_key text voice_name (.success (.obj fields)) =
      (none, some "No audio data in response") := by
  simp [generate_speech, extractResult_no_candidates fields h]

/-- Witness for C5 at the concrete empty response object. -/
theorem claim_C5_no_candidates_witness :
    List.lookup "candidates" ([] : List (String × Json)) = none ∧
      generate_speech "k" "t" "Puck" (.success (.obj [])) =
        (none, some "No audio data in response") :=
  ⟨rfl, claim_C5_no_candidates "k" "t" "Puck" [] (Or.inl rfl)⟩

/-- Counterexample to C4: in the response `{"candidates": [{}]}` the
`content` component of the audio path is missing, so the navigation raises
`KeyError("content")` — caught as the generic wrapped error, not the
specific `"No audio data in response"` string the claim requires. -/
theorem claim_C4_counterexample :
    generate_speech "k" "t" "Puck"
        (.success (.obj [("candidates", .arr [.obj []])])) ≠
      (none, some "No audio data in response") := by decide

/-- A response whose audio path exists down to `parts[0]`, a JSON object
with the given fields:
`{"candidates": [{"content": {"parts": [{...part0fields...}]}}]}`. -/
def partsResponse (part0fields : List (String × Json)) : Json :=
  Json.obj [("candidates", Json.arr [Json.obj [("content",
    Json.obj [("parts", Json.arr [Json.obj part0fields])])]])]

/-- C4 as amended: the specific `"No audio data in response"` error is
returned when the path exists down to `parts[0]` and its `inlineData` entry
is absent; but when an intermediate component of the path is missing (here
`content`), `generate_speech` instead returns the generic wrapped
`KeyError` text. -/
theorem claim_C4_inline_data_absent :
    (∀ (api_key text voice_name : String)
        (part0fields : List (String × Json)),
        List.lookup "inlineData" part0fields = none →
        generate_speech api_key text voice_name
            (.success (partsResponse part0fields)) =
          (none, some "No audio data in response")) ∧
      generate_speech "k" "t" "Puck"
          (.success (.obj [("candidates", .arr [.obj []])])) =
        (none, some ("Error: " ++ pyQuote ++ "content" ++ pyQuote)) := by
  constructor
  · intro api_key text voice_name part0fields h
    simp [generate_speech, extractResult, partsResponse, pyIn, pyGetItem,
      pyLen, pyIndex, pyDictGet, h]
  · decide

/-- Witness for the amended C4 at `parts[0] = {}`. -/
theorem claim_C4_inline_data_absent_witness :
    generate_speech "k" "t" "Puck" (.success (partsResponse [])) =
      (none, some "No audio data in response") :=
  claim_C4_inline_data_absent.1 "k" "t" "Puck" [] rfl

/-- A response carrying inline audio: the canonical shape
`{"candidates": [{"content": {"parts": [{"inlineData":
{"data": d, "mimeType": m}}]}}]}`. -/
def audioResponse (d m : String) : Json :=
  partsResponse [("inlineData", Json.obj
    [("data", Json.str d), ("mimeType", Json.str m)])]

/-- C6: when the `inlineData.mimeType` contains neither `"audio/L16"` nor
`"audio/pcm"`, `generate_speech` returns the base64-decoded bytes
unchanged, without applying the container encoder. -/
theorem claim_C6_passthrough (api_key text voice_name d m : String)
    (bytes : List Nat) (hdec : b64decode d = .ok bytes)
    (h16 : strContainsSub m "audio/L16" = false)
    (hpcm : strContainsSub m "audio/pcm" = false) :
    generate_speech api_key text voice_name (.success (audioResponse d m)) =
      (some bytes, none) := by
  have hdat : List.lookup "data"
      [("data", Json.str d), ("mimeType", Json.str m)] =
        some (Json.str d) := rfl
  have hmim : List.lookup "mimeType"
      [("data", Json.str d), ("mimeType", Json.str m)] =
        some (Json.str m) := rfl
  simp [generate_speech, extractResult, audioResponse, partsResponse, pyIn,
    pyGetItem, pyLen, pyIndex, pyDictGet, jsonTruthy, pyB64decode, hdat,
    hmim, hdec, h16, hpcm]

/-- Witness for C6: mime type `audio/mpeg`, base64 data `"AAAA"` decoding
to three zero bytes, returned undisturbed. -/
theorem claim_C6_passthrough_witness :
    b64decode "AAAA" = .ok [0, 0, 0] ∧
      strContainsSub "audio/mpeg" "audio/L16" = false ∧
      strContainsSub "audio/mpeg" "audio/pcm" = false ∧
      generate_speech "k" "t" "Puck"
          (.success (audioResponse "AAAA" "audio/mpeg")) =
        (some [0, 0, 0], none) :=
  ⟨rfl, by decide, by decide,
    claim_C6_passthrough "k" "t" "Puck" "AAAA" "audio/mpeg" [0, 0, 0]
      rfl (by decide) (by decide)⟩

/-- C10: invoked without a voice identifier, `generate_speech` fills the
payload's `voiceName` field with the default `"Puck"` — a default the
specification never states. -/
theorem claim_C10_default_voice :
    defaultVoiceName = "Puck" ∧
      ∀ text : String,
        payloadVoiceName (buildPayload text defaultVoiceName) =
          some (.str "Puck") :=
  ⟨rfl, fun _ => rfl⟩
